import Mathlib

/-!
Shallow embedding of the BitgetETHMMBIFunding market-making bot
(`src/bot/...`) and verification of its specification claims.

Python floats are modelled as rationals (`ℚ`), Python strings as `String`,
Python `None`-able values as `Option`, and Python exceptions as `Except`.
Each definition is a direct translation of the named source function.
-/

set_option maxRecDepth 8000

unseal Rat.add Rat.sub Rat.mul Rat.inv

deriving instance DecidableEq for Except

namespace Bot

/-! ## `src/bot/types.py`: enumerations and dataclasses -/

/-- `InstType` enum (`types.py`). -/
inductive InstType where
  | SPOT
  | USDT_FUTURES
deriving DecidableEq, Repr

def InstType.value : InstType → String
  | .SPOT => "SPOT"
  | .USDT_FUTURES => "USDT-FUTURES"

/-- `Side` enum (`types.py`). -/
inductive Side where
  | BUY
  | SELL
deriving DecidableEq, Repr

def Side.value : Side → String
  | .BUY => "buy"
  | .SELL => "sell"

/-- `OrderType` enum (`types.py`). -/
inductive OrderType where
  | LIMIT
  | MARKET
deriving DecidableEq, Repr

/-- `Force` enum (`types.py`). -/
inductive Force where
  | GTC
  | POST_ONLY
  | IOC
  | FOK
deriving DecidableEq, Repr

/-- `OrderIntent` enum exactly as declared in `types.py` lines 30-34.
The source declares only these four members; in particular there is no
`UNWIND` member, although `oms.py` refers to `OrderIntent.UNWIND`. -/
inductive OrderIntent where
  | QUOTE_BID
  | QUOTE_ASK
  | HEDGE
  | FLATTEN
deriving DecidableEq, Repr

def OrderIntent.value : OrderIntent → String
  | .QUOTE_BID => "QUOTE_BID"
  | .QUOTE_ASK => "QUOTE_ASK"
  | .HEDGE => "HEDGE"
  | .FLATTEN => "FLATTEN"

/-- Member list of the `OrderIntent` enum in declaration order
(Python `for intent in OrderIntent` iterates in this order). -/
def orderIntentMembers : List OrderIntent :=
  [.QUOTE_BID, .QUOTE_ASK, .HEDGE, .FLATTEN]

/-- Python attribute access `OrderIntent.<name>` on the enum class:
returns the member with that name, or `none` (an `AttributeError`)
when the enum has no such member. -/
def orderIntentAttr (name : String) : Option OrderIntent :=
  (orderIntentMembers.find? (fun i => i.value == name))

/-- `BBO` dataclass (`types.py`). -/
structure BBO where
  bid : ℚ
  ask : ℚ
  bid_size : ℚ
  ask_size : ℚ
  ts : ℚ
deriving DecidableEq, Repr

/-- `BookSnapshot` dataclass (`types.py`). -/
structure BookSnapshot where
  bids : List (ℚ × ℚ)
  asks : List (ℚ × ℚ)
  ts : ℚ
deriving DecidableEq, Repr

/-- `FundingInfo` dataclass (`types.py`). -/
structure FundingInfo where
  funding_rate : ℚ
  next_update_time : Option ℚ
  interval_sec : Option ℚ
  ts : ℚ
deriving DecidableEq, Repr

/-- `OrderRequest` dataclass (`types.py`). -/
structure OrderRequest where
  inst_type : InstType
  symbol : String
  side : Side
  order_type : OrderType
  size : ℚ
  force : Force
  client_oid : String
  intent : OrderIntent
  cycle_id : Int
  price : Option ℚ := none
  reduce_only : Option Bool := none
deriving DecidableEq, Repr

/-- `ExecutionEvent` dataclass (`types.py`). -/
structure ExecutionEvent where
  inst_type : InstType
  symbol : String
  order_id : String
  client_oid : String
  fill_id : String
  side : Side
  price : ℚ
  size : ℚ
  fee : ℚ
  ts : ℚ
deriving DecidableEq, Repr

/-! ## `src/bot/exchange/constraints.py` -/

/-- `InstrumentConstraints` dataclass (`constraints.py`). -/
structure InstrumentConstraints where
  min_qty : ℚ
  qty_step : ℚ
  min_notional : ℚ
  tick_size : ℚ
deriving DecidableEq, Repr

namespace InstrumentConstraints

/-- `InstrumentConstraints.is_ready` (`constraints.py` lines 17-18):
`self.min_qty > 0 and self.qty_step > 0 and self.tick_size > 0`.
Note that the source does not test `min_notional`. -/
def is_ready (c : InstrumentConstraints) : Bool :=
  decide (c.min_qty > 0) && decide (c.qty_step > 0) && decide (c.tick_size > 0)

/-- `InstrumentConstraints.adjust_qty` (`constraints.py` lines 20-23):
floor to the quantity step, untouched when the step is non-positive. -/
def adjust_qty (c : InstrumentConstraints) (qty : ℚ) : ℚ :=
  if c.qty_step ≤ 0 then qty
  else ((Int.floor (qty / c.qty_step) : ℤ) : ℚ) * c.qty_step

/-- `InstrumentConstraints.adjust_price` (`constraints.py` lines 25-28):
floor to the tick, untouched when the tick is non-positive. -/
def adjust_price (c : InstrumentConstraints) (price : ℚ) : ℚ :=
  if c.tick_size ≤ 0 then price
  else ((Int.floor (price / c.tick_size) : ℤ) : ℚ) * c.tick_size

/-- `InstrumentConstraints.validate` (`constraints.py` lines 30-35). -/
def validate (c : InstrumentConstraints) (price qty : ℚ) : Bool :=
  if qty < c.min_qty then false
  else if c.min_notional > 0 ∧ price * qty < c.min_notional then false
  else true

end InstrumentConstraints

/-- `ConstraintsRegistry` dataclass (`constraints.py`). -/
structure ConstraintsRegistry where
  spot : Option InstrumentConstraints := none
  perp : Option InstrumentConstraints := none
deriving DecidableEq, Repr

namespace ConstraintsRegistry

/-- `ConstraintsRegistry.ready` (`constraints.py` lines 43-49). -/
def ready (r : ConstraintsRegistry) : Bool :=
  match r.spot, r.perp with
  | some s, some p => s.is_ready && p.is_ready
  | _, _ => false

/-- `ConstraintsRegistry.get` (`constraints.py` lines 51-56). -/
def get (r : ConstraintsRegistry) : InstType → Option InstrumentConstraints
  | .SPOT => r.spot
  | .USDT_FUTURES => r.perp

end ConstraintsRegistry

/-! ## `src/bot/marketdata/book.py`: derived quantities -/

/-- `bbo_from_snapshot` (`book.py` lines 235-238). The source indexes
`bids[0]`/`asks[0]`; callers only pass snapshots with non-empty sides,
so the default for the empty case is never reached. -/
def bbo_from_snapshot (snapshot : BookSnapshot) : BBO :=
  let b := snapshot.bids.headD (0, 0)
  let a := snapshot.asks.headD (0, 0)
  { bid := b.1, ask := a.1, bid_size := b.2, ask_size := a.2, ts := snapshot.ts }

/-- `calc_mid` (`book.py` lines 241-242). -/
def calc_mid (bbo : BBO) : ℚ :=
  (bbo.bid + bbo.ask) / 2

/-- `calc_obi` (`book.py` lines 245-251). -/
def calc_obi (snapshot : BookSnapshot) : ℚ :=
  let bid_qty := (snapshot.bids.map Prod.snd).sum
  let ask_qty := (snapshot.asks.map Prod.snd).sum
  let denom := bid_qty + ask_qty
  if denom ≤ 0 then 0 else (bid_qty - ask_qty) / denom

/-- `calc_microprice` (`book.py` lines 254-258). -/
def calc_microprice (bbo : BBO) : ℚ :=
  let denom := bbo.bid_size + bbo.ask_size
  if denom ≤ 0 then (bbo.bid + bbo.ask) / 2
  else (bbo.ask * bbo.bid_size + bbo.bid * bbo.ask_size) / denom

/-! ## `src/bot/config.py`: the configuration records used by the core -/

/-- `RiskConfig` dataclass (`config.py`), fields the guards read. -/
structure RiskConfig where
  stale_sec : ℚ
  max_unhedged_sec : ℚ
  max_unhedged_notional : ℚ
  max_position_notional : ℚ
  cooldown_sec : ℚ
  funding_stale_sec : ℚ := 120
  reject_streak_limit : Int := 3
  book_boot_timeout_sec : Option ℚ := none
  book_stale_sec : Option ℚ := none
  controlled_reconnect_grace_sec : ℚ := 3
deriving DecidableEq, Repr

/-- `StrategyConfig` dataclass (`config.py`). -/
structure StrategyConfig where
  enable_only_positive_funding : Bool
  min_funding_rate : ℚ
  target_notional : ℚ
  delta_tolerance : ℚ
  obi_levels : Int
  alpha_obi_bps : ℚ
  gamma_inventory_bps : ℚ
  base_half_spread_bps : ℚ
  quote_refresh_ms : Int
  dry_run : Bool := false
deriving DecidableEq, Repr

/-- `HedgeConfig` dataclass (`config.py`). -/
structure HedgeConfig where
  use_spot_limit_ioc : Bool
  hedge_aggressive_bps : ℚ
  hedge_deadline_sec : ℚ := 3/2
  hedge_max_tries : Int := 2
  hedge_chase_slip_bps : ℚ := 5
  unwind_enable : Bool := true
deriving DecidableEq, Repr

/-- `CostConfig` dataclass (`config.py`). -/
structure CostConfig where
  fee_maker_perp_bps : ℚ
  fee_taker_spot_bps : ℚ
  slippage_bps : ℚ
deriving DecidableEq, Repr

/-! ## `src/bot/risk/guards.py` -/

/-- The mutable state of a `RiskGuards` object (`guards.py` lines 9-15). -/
structure RiskState where
  cooldown_until : ℚ := 0
  halted : Bool := false
  halt_reason : Option String := none
  halt_ts : Option ℚ := none
  reject_streak : Int := 0
deriving DecidableEq, Repr

namespace RiskGuards

/-- `RiskGuards.in_cooldown` (`guards.py` lines 17-19), with the wall
clock passed explicitly. -/
def in_cooldown (s : RiskState) (now : ℚ) : Bool :=
  decide (now < s.cooldown_until)

/-- `RiskGuards.set_cooldown` (`guards.py` lines 21-23). -/
def set_cooldown (cfg : RiskConfig) (s : RiskState) (now : ℚ) : RiskState :=
  { s with cooldown_until := now + cfg.cooldown_sec }

/-- `RiskGuards.halt` (`guards.py` lines 25-29). -/
def halt (s : RiskState) (reason : String) (now : ℚ) : RiskState :=
  { s with halted := true, halt_reason := some reason, halt_ts := some now }

/-- `RiskGuards.is_halted` (`guards.py` lines 31-32). -/
def is_halted (s : RiskState) : Bool :=
  s.halted

/-- `RiskGuards.record_order_result` (`guards.py` lines 46-53).
Returns the updated state together with the returned streak value. -/
def record_order_result (cfg : RiskConfig) (s : RiskState) (ok : Bool)
    (now : ℚ) : RiskState × Int :=
  if ok then
    ({ s with reject_streak := 0 }, 0)
  else
    let streak := s.reject_streak + 1
    let s' := { s with reject_streak := streak }
    if streak ≥ cfg.reject_streak_limit then
      (halt s' "reject_streak" now, streak)
    else
      (s', streak)

/-- `RiskGuards.stale` (`guards.py` lines 55-64). -/
def stale (cfg : RiskConfig) (last_ts : Option ℚ) (now : ℚ) : Bool :=
  match last_ts with
  | none => true
  | some ts =>
      let stale_sec := cfg.book_stale_sec.getD cfg.stale_sec
      decide (now - ts > stale_sec)

/-- `RiskGuards.unhedged_exceeded` (`guards.py` lines 66-73), with the
wall clock passed explicitly. -/
def unhedged_exceeded (cfg : RiskConfig) (unhedged_notional : ℚ)
    (unhedged_since : Option ℚ) (now : ℚ) : Bool :=
  if unhedged_notional ≤ 0 then false
  else if unhedged_notional ≥ cfg.max_unhedged_notional then true
  else
    match unhedged_since with
    | none => false
    | some since => decide (now - since ≥ cfg.max_unhedged_sec)

/-- The state-mutating operations of a `RiskGuards` object.  `guards.py`
exposes `in_cooldown`, `set_cooldown`, `halt`, `is_halted`,
`record_order_result`, `stale`, `unhedged_exceeded` and three read-only
properties; only the three operations below write to the state. -/
inductive Op where
  | setCooldown (now : ℚ)
  | doHalt (reason : String) (now : ℚ)
  | recordOrderResult (ok : Bool) (now : ℚ)
deriving DecidableEq, Repr

/-- Apply a mutating `RiskGuards` operation to the state. -/
def applyOp (cfg : RiskConfig) (s : RiskState) : Op → RiskState
  | .setCooldown now => set_cooldown cfg s now
  | .doHalt reason now => halt s reason now
  | .recordOrderResult ok now => (record_order_result cfg s ok now).1

end RiskGuards

/-! ## Python dictionary and truthiness helpers

Python dicts are modelled as association lists in insertion order with
unique keys (assignment updates in place, otherwise appends). -/

/-- Python `d[k] = v` on a dict. -/
def dictSet {α : Type} (d : List (String × α)) (k : String) (v : α) :
    List (String × α) :=
  if d.any (fun p => p.1 == k) then
    d.map (fun p => if p.1 == k then (p.1, v) else p)
  else d ++ [(k, v)]

/-- Python `d.pop(k, None)` on a dict with unique keys. -/
def dictPop {α : Type} (d : List (String × α)) (k : String) :
    List (String × α) :=
  d.filter (fun p => p.1 != k)

/-- Python `a or b` on optional floats (`0` is falsy). -/
def pyOrQ (a b : Option ℚ) : Option ℚ :=
  match a with
  | some x => if x = 0 then b else some x
  | none => b

/-- Python `a or b` on optional strings (`""` is falsy). -/
def pyOrS (a b : Option String) : Option String :=
  match a with
  | some s => if s = "" then b else some s
  | none => b

/-! ## `src/bot/marketdata/book.py`: `snapshot_from_store` (row-scan path)

The store is modelled as the plain list of rows returned by
`store.book.find()`; the modelled store object has no `sorted` attribute,
so the source's preferred branch (`book.py` lines 173-191) is skipped and
the row-scan fallback (lines 193-232) runs.  Row values are already
parsed numbers (`_to_float` of a number is the number itself). -/

/-- One row of the in-store book, with exactly the dict keys the scan
reads (`None` for an absent key). -/
structure BookRow where
  instId : Option String := none
  symbol : Option String := none
  instType : Option String := none
  channel : Option String := none
  side : Option String := none
  price : Option ℚ := none
  px : Option ℚ := none
  size : Option ℚ := none
  amount : Option ℚ := none
  qty : Option ℚ := none
  sz : Option ℚ := none
  ts : Option ℚ := none
  timestamp : Option ℚ := none
  time : Option ℚ := none
deriving DecidableEq, Repr

/-- ASCII lower-casing of one character (Python `str.lower` on the
ASCII side values the venue sends). -/
def lowerChar (c : Char) : Char :=
  if 65 ≤ c.toNat ∧ c.toNat ≤ 90 then Char.ofNat (c.toNat + 32) else c

/-- Python `s.lower()` on an ASCII string. -/
def pyLower (s : String) : String := String.mk (s.data.map lowerChar)

/-- `_side_from_row` (`book.py` lines 332-340). -/
def sideFromRow (value : Option String) : Option String :=
  match value with
  | none => none
  | some v =>
      let s := pyLower v
      if s = "buy" ∨ s = "bid" ∨ s = "bids" then some "bid"
      else if s = "sell" ∨ s = "ask" ∨ s = "asks" then some "ask"
      else none

/-- `_normalize_ts` (`book.py` lines 352-361) on an already-numeric value. -/
def normalizeTs (value : Option ℚ) : Option ℚ :=
  match value with
  | none => none
  | some t => if t > 10 ^ 12 then some (t / 1000) else some t

/-- `_update_latest_ts` (`book.py` lines 364-370). -/
def updateLatestTs (latest : Option ℚ) (row : BookRow) : Option ℚ :=
  match normalizeTs (pyOrQ row.ts (pyOrQ row.timestamp row.time)) with
  | none => latest
  | some t =>
      match latest with
      | none => some t
      | some l => some (max l t)

/-- `_rows_for` (`book.py` lines 261-282). -/
def rowsFor (rows : List BookRow) (inst_type : InstType) (symbol : String)
    (channel : Option String) : List BookRow :=
  rows.filter fun row =>
    let row_symbol := pyOrS row.instId row.symbol
    if symbol ≠ "" ∧ row_symbol ≠ some symbol then false
    else if (match row.instType with
             | some t => decide (t ≠ "" ∧ t ≠ inst_type.value)
             | none => false) then false
    else
      match channel with
      | some ch =>
          if ch ≠ "" then decide (row.channel = some ch) else true
      | none => true

/-- One pass of the partition loop in `snapshot_from_store`
(`book.py` lines 205-218), accumulating bids, asks and the latest
timestamp over the rows. -/
def partitionRows (rows : List BookRow) :
    List (ℚ × ℚ) × List (ℚ × ℚ) × Option ℚ :=
  rows.foldl
    (fun acc row =>
      let (bids, asks, latest) := acc
      match sideFromRow row.side with
      | none => acc
      | some side =>
          match pyOrQ row.price row.px,
                pyOrQ row.size (pyOrQ row.amount (pyOrQ row.qty row.sz)) with
          | some price, some size =>
              let bids := if side = "bid" then bids ++ [(price, size)] else bids
              let asks := if side = "ask" then asks ++ [(price, size)] else asks
              (bids, asks, updateLatestTs latest row)
          | _, _ => acc)
    ([], [], none)

/-- `snapshot_from_store` for a store without a `sorted` book view
(`book.py` lines 162-232): row scan, partition, stable sort (bids by
descending price, asks by ascending price — Python `list.sort` is
stable), truncation to `levels`, timestamp fallback to the wall clock.
Returns the snapshot together with `used_channel_filter`. -/
def snapshotFromStore (rows : List BookRow) (inst_type : InstType)
    (symbol : String) (levels : Int) (channel : Option String) (now : ℚ) :
    Option BookSnapshot × Bool :=
  let rows1 := rowsFor rows inst_type symbol channel
  let channelTruthy : Bool := match channel with
    | some ch => decide (ch ≠ "")
    | none => false
  let retried :=
    if rows1.isEmpty ∧ channelTruthy then
      let rows2 := rowsFor rows inst_type symbol none
      if ¬ rows2.isEmpty then (rows2, false) else (rows2, true)
    else (rows1, true)
  let rowsUsed := retried.1
  let used_channel_filter := retried.2
  if rowsUsed.isEmpty then (none, used_channel_filter)
  else
    let (bids0, asks0, latest) := partitionRows rowsUsed
    if bids0.isEmpty ∨ asks0.isEmpty then (none, used_channel_filter)
    else
      let bids1 := bids0.insertionSort (fun a b => a.1 ≥ b.1)
      let asks1 := asks0.insertionSort (fun a b => a.1 ≤ b.1)
      let bids2 := if levels > 0 then bids1.take levels.toNat else bids1
      let asks2 := if levels > 0 then asks1.take levels.toNat else asks1
      let ts := latest.getD now
      (some { bids := bids2, asks := asks2, ts := ts }, used_channel_filter)

/-! ## `src/bot/oms/oms.py` -/

namespace OMS

/-- `ActiveOrder` dataclass (`oms.py` lines 18-27). -/
structure ActiveOrder where
  order_id : String
  client_oid : String
  price : ℚ
  size : ℚ
  side : Side
  intent : OrderIntent
  ts : ℚ
deriving DecidableEq, Repr

/-- `HedgeTicket` dataclass (`oms.py` lines 29-44). -/
structure HedgeTicket where
  ticket_id : String
  symbol : String
  side : Side
  want_qty : ℚ
  filled_qty : ℚ
  created_ts : ℚ
  deadline_ts : ℚ
  tries : Int
  status : String
  reason : String
deriving DecidableEq, Repr

/-- `HedgeTicket.remain` (`oms.py` lines 42-44). -/
def HedgeTicket.remain (t : HedgeTicket) : ℚ :=
  max 0 (t.want_qty - t.filled_qty)

/-- `LRUSet` (`oms.py` lines 47-59): a dict from key to the insertion
time, bounded by `maxlen` (default 10000); inserting beyond the bound
evicts the entry with the smallest time (Python `min` over the items —
the first minimal entry in insertion order). -/
structure LRUSet where
  maxlen : Nat := 10000
  data : List (String × ℚ) := []
deriving DecidableEq, Repr

/-- `key in lru` (`LRUSet.__contains__`, `oms.py` lines 52-53). -/
def LRUSet.contains (s : LRUSet) (key : String) : Bool :=
  s.data.any (fun p => p.1 == key)

/-- Python `min(items, key=value)`: the first entry with minimal value. -/
def minEntry : List (String × ℚ) → Option (String × ℚ)
  | [] => none
  | e :: rest => some (rest.foldl (fun b p => if p.2 < b.2 then p else b) e)

/-- `LRUSet.add` (`oms.py` lines 55-59), with the wall clock passed
explicitly for `time.time()`. -/
def LRUSet.add (s : LRUSet) (key : String) (now : ℚ) : LRUSet :=
  let d := dictSet s.data key now
  if d.length > s.maxlen then
    match minEntry d with
    | some oldest => { s with data := dictPop d oldest.1 }
    | none => { s with data := d }
  else { s with data := d }

/-- `PositionTracker` (`oms.py` lines 62-72). -/
structure PositionTracker where
  spot_pos : ℚ := 0
  perp_pos : ℚ := 0
deriving DecidableEq, Repr

/-- `PositionTracker.apply_fill` (`oms.py` lines 67-72). -/
def PositionTracker.apply_fill (p : PositionTracker) (event : ExecutionEvent) :
    PositionTracker :=
  let delta := if event.side = Side.BUY then event.size else -event.size
  match event.inst_type with
  | .SPOT => { p with spot_pos := p.spot_pos + delta }
  | .USDT_FUTURES => { p with perp_pos := p.perp_pos + delta }

/-- A JSONL record projected to the fields the claims mention. -/
structure Record where
  event : String
  intent : Option String := none
  state : Option String := none
  reason : Option String := none
  resp_code : Option String := none
  action : Option String := none
deriving DecidableEq, Repr

/-- The environment of one OMS/strategy operation: configuration plus
everything the code reads from the outside world (gateway attributes,
the data store, venue responses, the wall clock, and the random
client-oid suffix).  Responses are a constant oracle: one legal
behaviour of the venue. -/
structure Env where
  spot_symbol : String := "ETHUSDT"
  perp_symbol : String := "ETHUSDT"
  strategy : StrategyConfig
  hedge : HedgeConfig
  riskCfg : RiskConfig
  cost : CostConfig
  constraints : ConstraintsRegistry := {}
  book_ready : Bool := false
  public_book_channel : String := "books"
  book_rows : List BookRow := []
  funding_last : Option FundingInfo := none
  place_code : String := "00000"
  place_order_id : Option String := none
  now : ℚ := 0
  oid_suffix : String := "abcdef0123"
deriving DecidableEq, Repr

/-- The mutable state of an `OMS` object (`oms.py` lines 90-102)
together with the risk-guard state it drives and the trace of emitted
JSONL records. -/
structure OmsState where
  positions : PositionTracker := {}
  seen_fills : LRUSet := {}
  active_bid : Option ActiveOrder := none
  active_ask : Option ActiveOrder := none
  order_client_map : List (String × String) := []
  spot_client_ticket : List (String × String) := []
  spot_order_ticket : List (String × String) := []
  hedge_tickets : List (String × HedgeTicket) := []
  unhedged_qty : ℚ := 0
  unhedged_since : Option ℚ := none
  risk : RiskState := {}
  records : List Record := []
deriving DecidableEq, Repr

/-- Append an emitted JSONL record to the trace. -/
def emit (st : OmsState) (r : Record) : OmsState :=
  { st with records := st.records ++ [r] }

/-- `self._active_quotes[intent]` — the dict only has the two quote
keys; the source never indexes it with another intent. -/
def get_quote_slot (st : OmsState) : OrderIntent → Option ActiveOrder
  | .QUOTE_BID => st.active_bid
  | .QUOTE_ASK => st.active_ask
  | _ => none

/-- `self._active_quotes[intent] = v` for the two quote keys. -/
def set_quote_slot (st : OmsState) (intent : OrderIntent)
    (v : Option ActiveOrder) : OmsState :=
  match intent with
  | .QUOTE_BID => { st with active_bid := v }
  | .QUOTE_ASK => { st with active_ask := v }
  | _ => st

/-- `OMS._new_client_oid` (`oms.py` lines 797-799), with the random
10-hex suffix supplied by the environment. -/
def new_client_oid (env : Env) (intent : OrderIntent) (cycle_id : Int) :
    String :=
  intent.value ++ "-" ++ toString cycle_id ++ "-" ++ env.oid_suffix

/-- `OMS._needs_replace` (`oms.py` lines 774-785). -/
def needs_replace (existing : ActiveOrder) (price size : ℚ)
    (constraints : InstrumentConstraints) : Bool :=
  if |size - existing.size| > constraints.qty_step / 2 then true
  else if |price - existing.price| ≥ constraints.tick_size then true
  else false

/-- `OMS._intent_from_client_oid` (`oms.py` lines 787-795): recover the
intent from the client-oid prefix by iterating the enum members. -/
def intent_from_client_oid (client_oid : String) : Option OrderIntent :=
  if client_oid = "" then none
  else orderIntentMembers.find?
    (fun intent => (intent.value ++ "-").data.isPrefixOf client_oid.data)

/-- `OMS._ticket_id_from_event` (`oms.py` lines 537-544).  The stored
ticket ids are non-empty strings, so Python's `if ticket_id:` is the
`some` test. -/
def ticket_id_from_event (st : OmsState) (event : ExecutionEvent) :
    Option String :=
  let fromClient :=
    if event.client_oid ≠ "" then st.spot_client_ticket.lookup event.client_oid
    else none
  match fromClient with
  | some tid => some tid
  | none =>
      if event.order_id ≠ "" then st.spot_order_ticket.lookup event.order_id
      else none

/-- `OMS._cleanup_ticket` (`oms.py` lines 546-551). -/
def cleanup_ticket (st : OmsState) (ticket_id : String) : OmsState :=
  { st with
    hedge_tickets := dictPop st.hedge_tickets ticket_id,
    spot_client_ticket := st.spot_client_ticket.filter (fun p => p.2 != ticket_id),
    spot_order_ticket := st.spot_order_ticket.filter (fun p => p.2 != ticket_id) }

/-- `OMS._add_unhedged` (`oms.py` lines 553-557). -/
def add_unhedged (env : Env) (st : OmsState) (event : ExecutionEvent) :
    OmsState :=
  let delta := if event.side = Side.SELL then event.size else -event.size
  let st := { st with unhedged_qty := st.unhedged_qty + delta }
  match st.unhedged_since with
  | none => { st with unhedged_since := some env.now }
  | some _ => st

/-- `OMS._submit_order` (`oms.py` lines 624-737): constraint
re-validation, the `order_new` record, the dry-run short-circuit, the
venue call, `risk.record_order_result`, and the `order_id → client_oid`
map update.  Returns the updated state and the extracted order id. -/
def submit_order (env : Env) (st : OmsState) (req : OrderRequest)
    (reason : String) : OmsState × Option String :=
  match env.constraints.get req.inst_type with
  | none =>
      (emit st { event := "order_skip", intent := some req.intent.value,
                 reason := some reason, state := some "blocked_constraints" },
       none)
  | some constraints =>
    if ¬ constraints.is_ready then
      (emit st { event := "order_skip", intent := some req.intent.value,
                 reason := some reason, state := some "blocked_constraints" },
       none)
    else
      let req := { req with
        price := req.price.map constraints.adjust_price,
        size := constraints.adjust_qty req.size }
      if req.size < constraints.min_qty then
        (emit st { event := "order_skip", intent := some req.intent.value,
                   reason := some reason, state := some "blocked_constraints" },
         none)
      else if (match req.price with
               | some price => ! constraints.validate price req.size
               | none => false) then
        (emit st { event := "order_skip", intent := some req.intent.value,
                   reason := some reason, state := some "blocked_constraints" },
         none)
      else if env.strategy.dry_run then
        (emit st { event := "order_new", intent := some req.intent.value,
                   reason := some reason, state := some "dry_run" },
         none)
      else
        let resp_code := env.place_code
        let st := emit st { event := "order_new",
                            intent := some req.intent.value,
                            reason := some reason, state := some "sent",
                            resp_code := some resp_code }
        let ok := resp_code == "00000"
        let rr := RiskGuards.record_order_result env.riskCfg st.risk ok env.now
        let st := { st with risk := rr.1 }
        let st :=
          if ¬ ok then
            emit st { event := "risk", intent := some req.intent.value,
                      reason := some "order_reject",
                      resp_code := some resp_code }
          else st
        match env.place_order_id with
        | some order_id =>
            ({ st with order_client_map :=
                 dictSet st.order_client_map order_id req.client_oid },
             some order_id)
        | none => (st, none)

/-- `OMS._cancel_order` (`oms.py` lines 739-772): emits the
`order_cancel` record (and performs the venue call outside dry-run,
which does not change OMS state). -/
def cancel_order (st : OmsState) (order : ActiveOrder) (reason state_ : String) :
    OmsState :=
  emit st { event := "order_cancel", intent := some order.intent.value,
            reason := some reason, state := some state_ }

/-- `OMS.cancel_all` (`oms.py` lines 147-154): iterate the quote slots
in dict order (`QUOTE_BID` then `QUOTE_ASK`), cancel and clear each
occupied one. -/
def cancel_all (st : OmsState) (reason : String) : OmsState :=
  let st := match st.active_bid with
    | some order => set_quote_slot (cancel_order st order reason "cancel")
        OrderIntent.QUOTE_BID none
    | none => st
  match st.active_ask with
  | some order => set_quote_slot (cancel_order st order reason "cancel")
      OrderIntent.QUOTE_ASK none
  | none => st

/-- `OMS._upsert_quote` (`oms.py` lines 559-622). -/
def upsert_quote (env : Env) (st : OmsState) (intent : OrderIntent)
    (side : Side) (price size : ℚ) (cycle_id : Int) (reason : String) :
    OmsState :=
  let existing := get_quote_slot st intent
  if price ≤ 0 ∨ size ≤ 0 then
    match existing with
    | some order =>
        set_quote_slot (cancel_order st order reason "cancel") intent none
    | none => st
  else
    match env.constraints.get InstType.USDT_FUTURES with
    | none => st
    | some constraints =>
      if ¬ constraints.is_ready then st
      else
        let price := constraints.adjust_price price
        let size := constraints.adjust_qty size
        if size ≤ 0 then
          match existing with
          | some order =>
              set_quote_slot (cancel_order st order reason "cancel") intent none
          | none => st
        else if ¬ constraints.validate price size then st
        else if (match existing with
                 | some order => ! needs_replace order price size constraints
                 | none => false) then st
        else
          let st := match existing with
            | some order => cancel_order st order reason "replace"
            | none => st
          let req : OrderRequest :=
            { inst_type := InstType.USDT_FUTURES,
              symbol := env.perp_symbol,
              side := side,
              order_type := OrderType.LIMIT,
              size := size,
              force := Force.POST_ONLY,
              client_oid := new_client_oid env intent cycle_id,
              intent := intent,
              cycle_id := cycle_id,
              price := some price }
          let res := submit_order env st req reason
          match res.2 with
          | some order_id =>
              set_quote_slot res.1 intent (some
                { order_id := order_id, client_oid := req.client_oid,
                  price := price, size := size, side := side,
                  intent := intent, ts := env.now })
          | none => res.1

/-- `OMS.update_quotes` (`oms.py` lines 120-145). -/
def update_quotes (env : Env) (st : OmsState) (bid_px ask_px bid_size ask_size : ℚ)
    (cycle_id : Int) (reason : String) : OmsState :=
  if ¬ env.constraints.ready then
    emit st { event := "order_skip", intent := some "QUOTE_SKIP",
              reason := some "constraints_not_ready", state := some "blocked" }
  else
    let st := upsert_quote env st OrderIntent.QUOTE_BID Side.BUY bid_px
      bid_size cycle_id reason
    upsert_quote env st OrderIntent.QUOTE_ASK Side.SELL ask_px
      ask_size cycle_id reason

/-- `OMS.flatten` (`oms.py` lines 156-196). -/
def flatten (env : Env) (st : OmsState) (spot_bbo : Option BBO)
    (cycle_id : Int) (reason : String) : OmsState :=
  let st := cancel_all st reason
  if ¬ env.constraints.ready then st
  else
    let st :=
      if st.positions.perp_pos ≠ 0 then
        let side := if st.positions.perp_pos < 0 then Side.BUY else Side.SELL
        (submit_order env st
          { inst_type := InstType.USDT_FUTURES,
            symbol := env.perp_symbol,
            side := side,
            order_type := OrderType.MARKET,
            size := |st.positions.perp_pos|,
            force := Force.IOC,
            client_oid := new_client_oid env OrderIntent.FLATTEN cycle_id,
            intent := OrderIntent.FLATTEN,
            cycle_id := cycle_id,
            reduce_only := some true } reason).1
      else st
    match spot_bbo with
    | some bbo =>
        if st.positions.spot_pos ≠ 0 then
          let side := if st.positions.spot_pos > 0 then Side.SELL else Side.BUY
          let price := if side = Side.BUY then bbo.ask else bbo.bid
          (submit_order env st
            { inst_type := InstType.SPOT,
              symbol := env.spot_symbol,
              side := side,
              order_type := OrderType.LIMIT,
              size := |st.positions.spot_pos|,
              force := Force.IOC,
              client_oid := new_client_oid env OrderIntent.FLATTEN cycle_id,
              intent := OrderIntent.FLATTEN,
              cycle_id := cycle_id,
              price := some price } reason).1
        else st
    | none => st

/-- The `1e-9` tolerance used by the ticket bookkeeping. -/
def eps : ℚ := 1 / 1000000000

/-- `OMS._open_hedge_ticket` (`oms.py` lines 346-378). -/
def open_hedge_ticket (env : Env) (st : OmsState) (event : ExecutionEvent)
    (hedge_side : Side) (reason : String) : OmsState × HedgeTicket :=
  let now := env.now
  let ticket_id := new_client_oid env OrderIntent.HEDGE (Int.floor (now * 1000))
  let ticket : HedgeTicket :=
    { ticket_id := ticket_id, symbol := env.spot_symbol, side := hedge_side,
      want_qty := event.size, filled_qty := 0, created_ts := now,
      deadline_ts := now + env.hedge.hedge_deadline_sec, tries := 0,
      status := "OPEN", reason := reason }
  let st := { st with hedge_tickets := dictSet st.hedge_tickets ticket_id ticket }
  (emit st { event := "state", intent := some OrderIntent.HEDGE.value,
             reason := some "ticket_open" }, ticket)

/-- `OMS._send_spot_hedge_order` (`oms.py` lines 380-433).  The ticket's
`tries`/`deadline_ts` mutations are written back into the ticket index
(in the source the dict holds the same object). -/
def send_spot_hedge_order (env : Env) (st : OmsState) (ticket : HedgeTicket)
    (spot_bbo : BBO) (slip_bps : ℚ) (reason : String)
    (use_ticket_client : Bool) : OmsState :=
  if ticket.remain ≤ 0 then st
  else
    let price0 := if ticket.side = Side.BUY then spot_bbo.ask else spot_bbo.bid
    let price :=
      if ticket.side = Side.BUY then price0 * (1 + slip_bps / 10000)
      else price0 * (1 - slip_bps / 10000)
    let client_oid :=
      if use_ticket_client then ticket.ticket_id
      else new_client_oid env OrderIntent.HEDGE (Int.floor (env.now * 1000))
    let st :=
      { st with spot_client_ticket :=
                  dictSet st.spot_client_ticket client_oid ticket.ticket_id }
    let req : OrderRequest :=
      { inst_type := InstType.SPOT, symbol := env.spot_symbol,
        side := ticket.side, order_type := OrderType.LIMIT,
        size := ticket.remain, force := Force.IOC, client_oid := client_oid,
        intent := OrderIntent.HEDGE, cycle_id := Int.floor (env.now * 1000),
        price := some price }
    let res := submit_order env st req reason
    let st := res.1
    let ticket' :=
      { ticket with
        tries := ticket.tries + 1,
        deadline_ts := env.now + env.hedge.hedge_deadline_sec }
    let st :=
      { st with hedge_tickets :=
                  dictSet st.hedge_tickets ticket.ticket_id ticket' }
    let st := emit st { event := "state",
                        intent := some OrderIntent.HEDGE.value,
                        reason := some "ticket_order" }
    match res.2 with
    | some order_id =>
        { st with spot_order_ticket :=
            dictSet st.spot_order_ticket order_id ticket.ticket_id }
    | none => st

/-- `OMS._unwind_ticket` (`oms.py` lines 435-467).  The source builds an
`OrderRequest` whose `client_oid` and `intent` mention
`OrderIntent.UNWIND`; that attribute access is modelled by
`orderIntentAttr "UNWIND"`, and since the enum in `types.py` has no
`UNWIND` member it raises `AttributeError` before any order is sent. -/
def unwind_ticket (env : Env) (st : OmsState) (ticket : HedgeTicket)
    (reason : String) : Except String OmsState :=
  if ¬ env.hedge.unwind_enable then .ok st
  else if ticket.remain ≤ 0 then .ok st
  else
    let st := cancel_all st reason
    match orderIntentAttr "UNWIND" with
    | none => .error "AttributeError: UNWIND"
    | some unwind =>
      let req : OrderRequest :=
        { inst_type := InstType.USDT_FUTURES, symbol := env.perp_symbol,
          side := ticket.side, order_type := OrderType.MARKET,
          size := ticket.remain, force := Force.IOC,
          client_oid := new_client_oid env unwind (Int.floor (env.now * 1000)),
          intent := unwind, cycle_id := Int.floor (env.now * 1000),
          reduce_only := some true }
      let st := emit st { event := "risk", intent := some unwind.value,
                          reason := some reason }
      .ok (submit_order env st req reason).1

/-- `OMS._hedge_perp_fill` (`oms.py` lines 469-504).  The gateway's
warn-once set behind `note_book_channel_filter_unavailable` is
log-level only and not modelled. -/
def hedge_perp_fill (env : Env) (st : OmsState) (event : ExecutionEvent) :
    OmsState :=
  if ¬ env.constraints.ready then st
  else
    let hedge_side := if event.side = Side.SELL then Side.BUY else Side.SELL
    let opened := open_hedge_ticket env st event hedge_side "perp_fill"
    let st := opened.1
    let ticket := opened.2
    if ¬ env.book_ready then add_unhedged env st event
    else
      let snap := snapshotFromStore env.book_rows InstType.SPOT env.spot_symbol
        1 (some env.public_book_channel) env.now
      let st :=
        match snap.1 with
        | some _ =>
            if ¬ snap.2 then
              emit st { event := "book_channel_filter_unavailable",
                        reason := some "book_channel_filter_unavailable" }
            else st
        | none => st
      match snap.1 with
      | none => add_unhedged env st event
      | some snapshot =>
          let spot_bbo := bbo_from_snapshot snapshot
          let st := add_unhedged env st event
          send_spot_hedge_order env st ticket spot_bbo
            env.hedge.hedge_aggressive_bps "hedge" true

/-- `OMS._apply_hedge_fill` (`oms.py` lines 506-535). -/
def apply_hedge_fill (st : OmsState) (event : ExecutionEvent)
    (ticket_id : Option String) : OmsState :=
  let delta := if event.side = Side.BUY then event.size else -event.size
  let uq := st.unhedged_qty - delta
  let st :=
    if |uq| ≤ eps then
      { st with unhedged_qty := 0, unhedged_since := none }
    else { st with unhedged_qty := uq }
  match ticket_id with
  | none => st
  | some tid =>
    match st.hedge_tickets.lookup tid with
    | none => st
    | some ticket =>
      let ticket := { ticket with filled_qty := ticket.filled_qty + event.size }
      let st := { st with hedge_tickets := dictSet st.hedge_tickets tid ticket }
      if ticket.remain ≤ eps then
        let st :=
          { st with hedge_tickets :=
                      dictSet st.hedge_tickets tid { ticket with status := "DONE" } }
        let st := emit st { event := "state",
                            intent := some OrderIntent.HEDGE.value,
                            reason := some "ticket_done" }
        cleanup_ticket st tid
      else st

/-- `OMS._handle_fill` (`oms.py` lines 315-344).  The membership test
`intent in (OrderIntent.FLATTEN, OrderIntent.UNWIND)` first evaluates
`OrderIntent.UNWIND`, which raises `AttributeError` (no such member). -/
def handle_fill (env : Env) (st : OmsState) (event : ExecutionEvent) :
    Except String OmsState :=
  let st :=
    if event.order_id ≠ "" ∧ event.client_oid ≠ "" then
      { st with order_client_map :=
          dictSet st.order_client_map event.order_id event.client_oid }
    else st
  let ticket_id := ticket_id_from_event st event
  let intent := intent_from_client_oid event.client_oid
  let st := emit st { event := "fill", intent := intent.map OrderIntent.value }
  let st := { st with positions := st.positions.apply_fill event }
  if intent = some OrderIntent.HEDGE ∨ ticket_id ≠ none then
    .ok (apply_hedge_fill st event ticket_id)
  else
    match orderIntentAttr "UNWIND" with
    | none => .error "AttributeError: UNWIND"
    | some unwind =>
      if intent = some OrderIntent.FLATTEN ∨ intent = some unwind then .ok st
      else if event.inst_type = InstType.USDT_FUTURES then
        .ok (hedge_perp_fill env st event)
      else .ok st

/-- The body of the `OMS.monitor_fills` polling loop for one parsed row
(`oms.py` lines 229-237): dedup against the LRU index, then handle. -/
def process_fill_event (env : Env) (st : OmsState) (event : ExecutionEvent) :
    Except String OmsState :=
  let dedupe_key := event.inst_type.value ++ ":" ++ event.fill_id
  if st.seen_fills.contains dedupe_key then .ok st
  else
    handle_fill env { st with seen_fills := st.seen_fills.add dedupe_key env.now }
      event

/-- Run `monitor_fills` over a sequence of parsed fill rows, each
arriving with its own environment (in particular its own wall-clock
instant). -/
def process_fills (st : OmsState) (events : List (Env × ExecutionEvent)) :
    Except String OmsState :=
  events.foldlM (fun s pe => process_fill_event pe.1 s pe.2) st

/-- One iteration of the `process_hedge_tickets` loop body
(`oms.py` lines 247-288) for the ticket `t` taken from the snapshot of
`list(self._hedge_tickets.values())`. -/
def process_ticket_step (env : Env) (spot_bbo : Option BBO) (st : OmsState)
    (t : HedgeTicket) : Except String OmsState :=
  if t.status ≠ "OPEN" then .ok (cleanup_ticket st t.ticket_id)
  else if t.remain ≤ eps then
    .ok (cleanup_ticket
      { st with hedge_tickets :=
          dictSet st.hedge_tickets t.ticket_id { t with status := "DONE" } }
      t.ticket_id)
  else if env.now < t.deadline_ts then .ok st
  else if t.tries < env.hedge.hedge_max_tries then
    match spot_bbo with
    | none => .ok st
    | some bbo =>
        let slip_bps := env.hedge.hedge_aggressive_bps
          + (t.tries : ℚ) * env.hedge.hedge_chase_slip_bps
        let st := emit st { event := "risk",
                            intent := some OrderIntent.HEDGE.value,
                            reason := some "hedge_chase" }
        .ok (send_spot_hedge_order env st t bbo slip_bps "hedge_chase" false)
  else do
    let st ← unwind_ticket env st t "hedge_unwind"
    .ok (cleanup_ticket
      { st with hedge_tickets :=
          dictSet st.hedge_tickets t.ticket_id { t with status := "FAILED" } }
      t.ticket_id)

/-- `OMS.process_hedge_tickets` (`oms.py` lines 240-288). -/
def process_hedge_tickets (env : Env) (st : OmsState)
    (spot_bbo : Option BBO) : Except String OmsState :=
  if st.hedge_tickets.isEmpty then .ok st
  else
    (st.hedge_tickets.map Prod.snd).foldlM (process_ticket_step env spot_bbo) st

end OMS

/-! ## `src/bot/strategy/mm_funding.py` -/

namespace Strategy

open OMS

/-- The mutable state of `MMFundingStrategy` (`mm_funding.py` lines 38-39):
the `StrategyState` enum value and the cycle counter. -/
structure StratState where
  state : String := "STOPPED"
  cycle_id : Int := 0
deriving DecidableEq, Repr

/-- Emit the `_log_decision` record (`mm_funding.py` lines 254-283),
projected to the strategy state and action. -/
def logDecision (st : OmsState) (state action : String) : OmsState :=
  emit st { event := "decision", state := some state, action := some action }

/-- `MMFundingStrategy.step` (`mm_funding.py` lines 47-252): one full
decision cycle, driving the OMS.  Note that the source consults
`self._risk` only through `stale`, `in_cooldown` and
`unhedged_exceeded` — it never calls `is_halted`. -/
def step (env : Env) (ss : StratState) (st : OmsState) :
    StratState × OmsState :=
  let cycle_id := ss.cycle_id + 1
  let now := env.now
  let spot_snapshot := (snapshotFromStore env.book_rows InstType.SPOT
    env.spot_symbol env.strategy.obi_levels none now).1
  let perp_snapshot := (snapshotFromStore env.book_rows InstType.USDT_FUTURES
    env.perp_symbol env.strategy.obi_levels none now).1
  match spot_snapshot, perp_snapshot with
  | none, _ =>
      (⟨"STOPPED", cycle_id⟩, logDecision (cancel_all st "no_book") "STOPPED" "idle")
  | some _, none =>
      (⟨"STOPPED", cycle_id⟩, logDecision (cancel_all st "no_book") "STOPPED" "idle")
  | some ssnap, some psnap =>
    let spot_bbo := bbo_from_snapshot ssnap
    let perp_bbo := bbo_from_snapshot psnap
    if RiskGuards.stale env.riskCfg (some ssnap.ts) now
        ∨ RiskGuards.stale env.riskCfg (some psnap.ts) now then
      (⟨"STOPPED", cycle_id⟩,
       logDecision (cancel_all st "stale_book") "STOPPED" "stale")
    else if RiskGuards.in_cooldown st.risk now then
      (⟨"COOLDOWN", cycle_id⟩,
       logDecision (cancel_all st "cooldown") "COOLDOWN" "cooldown")
    else
      match env.funding_last with
      | none =>
          (⟨"STOPPED", cycle_id⟩,
           logDecision (cancel_all st "no_funding") "STOPPED" "no_funding")
      | some funding =>
        let mid_spot := calc_mid spot_bbo
        let mid_perp := calc_mid perp_bbo
        let obi_perp := calc_obi psnap
        let target_q := env.strategy.target_notional / mid_perp
        let target_perp := -target_q
        let spot_pos := st.positions.spot_pos
        let perp_pos := st.positions.perp_pos
        let delta := spot_pos + perp_pos
        if |spot_pos| * mid_spot > env.riskCfg.max_position_notional
            ∨ |perp_pos| * mid_perp > env.riskCfg.max_position_notional then
          (⟨"FLATTENING", cycle_id⟩,
           logDecision (flatten env st (some spot_bbo) cycle_id "max_position")
             "FLATTENING" "max_position")
        else
          let expected_cost_bps := 2 * env.cost.fee_maker_perp_bps
            + 2 * (env.cost.fee_taker_spot_bps + env.cost.slippage_bps)
          let expected_cost := env.strategy.target_notional * (expected_cost_bps / 10000)
          let expected_funding := env.strategy.target_notional * funding.funding_rate
          let edge := expected_funding - expected_cost
          if env.strategy.enable_only_positive_funding
              ∧ funding.funding_rate < env.strategy.min_funding_rate then
            (⟨"STOPPED", cycle_id⟩,
             logDecision (cancel_all st "funding_below_min") "STOPPED" "funding_off")
          else if edge ≤ 0 then
            (⟨"STOPPED", cycle_id⟩,
             logDecision (cancel_all st "edge_negative") "STOPPED" "edge_negative")
          else
            let unhedged_notional := |st.unhedged_qty| * mid_spot
            if RiskGuards.unhedged_exceeded env.riskCfg unhedged_notional
                st.unhedged_since now then
              (⟨"FLATTENING", cycle_id⟩,
               logDecision
                 (flatten env st (some spot_bbo) cycle_id "unhedged_exceeded")
                 "FLATTENING" "flatten")
            else
              let alpha_px := mid_perp * (env.strategy.alpha_obi_bps / 10000) * obi_perp
              let inv_ratio :=
                if target_q = 0 then 0 else (perp_pos - target_perp) / target_q
              let gamma_px :=
                mid_perp * (env.strategy.gamma_inventory_bps / 10000) * inv_ratio
              let reservation := mid_perp + alpha_px - gamma_px
              let hedging := |st.unhedged_qty| > 0
                ∨ |delta| > env.strategy.delta_tolerance
              let half_bps :=
                if hedging then
                  env.strategy.base_half_spread_bps + env.strategy.base_half_spread_bps
                else env.strategy.base_half_spread_bps
              let state' := if hedging then "HEDGING" else "QUOTING"
              let bid_px := reservation * (1 - half_bps / 10000)
              let ask_px := reservation * (1 + half_bps / 10000)
              let base_size := max target_q 0
              let size_bid :=
                if perp_pos > target_perp then base_size
                else if perp_pos < target_perp then base_size * (6/5)
                else base_size
              let size_ask :=
                if perp_pos > target_perp then base_size * (6/5) else base_size
              let st := update_quotes env st bid_px ask_px size_bid size_ask
                cycle_id "quote"
              (⟨state', cycle_id⟩, logDecision st state' "quote")

end Strategy

/-! ## `src/bot/exchange/bitget_gateway.py`: the public WS loop

`run_public_ws` is modelled as the trace of externally visible actions
of one loop-body iteration (the non-exception path of lines 131-162),
as a function of the bootstrap outcome.  `current_channel` is a local
variable initialised to `"books"` before the loop and never reassigned
inside it; the returned string is its value for the next iteration.
`_signal_ws_disconnect` sets the shared disconnect event unless a
controlled-reconnect window is active, and `_enter_controlled_reconnect`
is never called anywhere in the source, so the window is never active
and every `signalDisconnect` action reaches the disconnect event
(which the supervisor in `app.py` lines 392-396 turns into
`risk.halt("ws_disconnect")`). -/

namespace Gateway

/-- Externally visible actions of the public WS loop. -/
inductive Action where
  | setPublicBookChannel (channel : String)
  | clearBookReadyEvent
  | subscribePublicBooks (channel : String)
  | logEvent (name : String)
  | signalDisconnect (scope : String) (error : Option String)
  | clearControlledReconnect
  | setBookReadyEvent
  | awaitSocketClose
  | sleep (sec : ℚ)
  | unsubscribeBooks (channel : String)
  | closePublicSocket
  | clearBookStore
deriving DecidableEq, Repr

/-- The book bootstrap deadline of `run_public_ws`
(`bitget_gateway.py` lines 122-129). -/
def book_boot_timeout (cfg : RiskConfig) : ℚ :=
  match cfg.book_boot_timeout_sec with
  | some t => t
  | none => max 3 ((cfg.book_stale_sec.getD cfg.stale_sec) * 2)

/-- One non-exception iteration of the `while True` body of
`run_public_ws` (`bitget_gateway.py` lines 131-162): subscribe on the
current channel, wait for bootstrap, and on timeout log
`book_boot_timeout` and signal the disconnect event with error
`book_fallback_failed`; then await the socket close, signal again, and
sleep.  Returns the emitted actions and the value of `current_channel`
for the next iteration. -/
def run_public_ws_iteration (current_channel : String)
    (bootstrap_ready : Bool) (reconnect_delay : ℚ) : List Action × String :=
  let head : List Action :=
    [Action.setPublicBookChannel current_channel,
     Action.clearBookReadyEvent,
     Action.subscribePublicBooks current_channel,
     Action.logEvent "ws_public_connected"]
  let mid : List Action :=
    if bootstrap_ready then
      [Action.clearControlledReconnect, Action.setBookReadyEvent]
    else
      [Action.logEvent "book_boot_timeout",
       Action.signalDisconnect "public" (some "book_fallback_failed")]
  let tail : List Action :=
    [Action.awaitSocketClose,
     Action.signalDisconnect "public" none,
     Action.sleep reconnect_delay]
  (head ++ mid ++ tail, current_channel)

end Gateway

/-! ## Concrete fixtures used by the verification theorems -/

/-- A typical strategy configuration (live mode). -/
def baseStrategyCfg : StrategyConfig :=
  { enable_only_positive_funding := true, min_funding_rate := 0,
    target_notional := 100, delta_tolerance := 1/50, obi_levels := 5,
    alpha_obi_bps := 0, gamma_inventory_bps := 0, base_half_spread_bps := 10,
    quote_refresh_ms := 500, dry_run := false }

/-- A typical hedge configuration (defaults of `config.py`). -/
def baseHedgeCfg : HedgeConfig :=
  { use_spot_limit_ioc := true, hedge_aggressive_bps := 5 }

/-- A typical risk configuration. -/
def baseRiskCfg : RiskConfig :=
  { stale_sec := 3, max_unhedged_sec := 10, max_unhedged_notional := 1000,
    max_position_notional := 10000, cooldown_sec := 5 }

/-- A typical cost configuration. -/
def baseCostCfg : CostConfig :=
  { fee_maker_perp_bps := 2, fee_taker_spot_bps := 10, slippage_bps := 2 }

/-- Spot instrument constraints (tick 0.01, step 0.0001). -/
def spotConstraints : InstrumentConstraints :=
  { min_qty := 1/10000, qty_step := 1/10000, min_notional := 1, tick_size := 1/100 }

/-- Perp instrument constraints (tick 0.01, step 0.01). -/
def perpConstraints : InstrumentConstraints :=
  { min_qty := 1/100, qty_step := 1/100, min_notional := 5, tick_size := 1/100 }

/-- A registry with both legs loaded and ready. -/
def baseRegistry : ConstraintsRegistry :=
  { spot := some spotConstraints, perp := some perpConstraints }

/-- A base environment with the typical configuration. -/
def baseEnv : OMS.Env :=
  { strategy := baseStrategyCfg, hedge := baseHedgeCfg,
    riskCfg := baseRiskCfg, cost := baseCostCfg }

/-- C1 fixture: the first iteration of the public WS loop, with the
book bootstrap timing out on channel `books`. -/
def c1_iteration : List Gateway.Action × String :=
  Gateway.run_public_ws_iteration "books" false 3

/-- C2 fixture: a store with fresh two-sided books on both legs. -/
def c2_rows : List BookRow :=
  [{ instId := some "ETHUSDT", instType := some "SPOT",
     channel := some "books", side := some "bid",
     price := some 100, size := some 1, ts := some 100 },
   { instId := some "ETHUSDT", instType := some "SPOT",
     channel := some "books", side := some "ask",
     price := some 101, size := some 1, ts := some 100 },
   { instId := some "ETHUSDT", instType := some "USDT-FUTURES",
     channel := some "books", side := some "bid",
     price := some 100, size := some 1, ts := some 100 },
   { instId := some "ETHUSDT", instType := some "USDT-FUTURES",
     channel := some "books", side := some "ask",
     price := some 101, size := some 1, ts := some 100 }]

/-- C2 fixture: a healthy live environment (books fresh, funding
positive, venue accepting orders). -/
def c2_env : OMS.Env :=
  { baseEnv with
    constraints := baseRegistry, book_ready := true, book_rows := c2_rows,
    funding_last := some { funding_rate := 1/100, next_update_time := none,
                           interval_sec := none, ts := 100 },
    place_code := "00000", place_order_id := some "OID1", now := 100 }

/-- C2 fixture: an OMS whose risk guards have already latched a halt. -/
def c2_state : OMS.OmsState :=
  { risk := { halted := true, halt_reason := some "reject_streak",
              halt_ts := some 50, reject_streak := 3 } }

/-- C3 fixture: an Open hedge ticket past its deadline with
`tries = hedge_max_tries = 2`. -/
def c3_ticket : OMS.HedgeTicket :=
  { ticket_id := "HEDGE-1-abcdef0123", symbol := "ETHUSDT", side := Side.BUY,
    want_qty := 1/20, filled_qty := 0, created_ts := 0, deadline_ts := 10,
    tries := 2, status := "OPEN", reason := "perp_fill" }

/-- C3 fixture: environment at a time past the ticket deadline. -/
def c3_env : OMS.Env :=
  { baseEnv with constraints := baseRegistry, now := 100 }

/-- C3 fixture: OMS state holding exactly the expired ticket. -/
def c3_state : OMS.OmsState :=
  { hedge_tickets := [(c3_ticket.ticket_id, c3_ticket)] }

/-- C3 fixture: the current spot BBO. -/
def c3_bbo : BBO := { bid := 100, ask := 101, bid_size := 1, ask_size := 1, ts := 100 }

/-- C4 fixture: a fresh deduplicated perpetual fill whose client-oid
prefix carries the quote intent `QUOTE_BID`. -/
def c4_event : ExecutionEvent :=
  { inst_type := InstType.USDT_FUTURES, symbol := "ETHUSDT",
    order_id := "ORD1", client_oid := "QUOTE_BID-7-abcdef0123",
    fill_id := "FILL1", side := Side.BUY, price := 100, size := 1/20,
    fee := 0, ts := 100 }

/-- C4 fixture: live environment with ready constraints. -/
def c4_env : OMS.Env :=
  { baseEnv with constraints := baseRegistry, book_ready := true, now := 100 }

/-- C6 counterexample input: all of tick, step and min-qty positive but
`min_notional = 0`. -/
def c6_constraints : InstrumentConstraints :=
  { min_qty := 1, qty_step := 1, min_notional := 0, tick_size := 1 }

/-- C9 witness input. -/
def c9_constraints : InstrumentConstraints :=
  { min_qty := 1, qty_step := 1/2, min_notional := 0, tick_size := 1/4 }

/-- C10 witness input: a BBO with positive sizes. -/
def c10_bbo : BBO := { bid := 10, ask := 12, bid_size := 1, ask_size := 3, ts := 0 }

/-- C10 witness input: a BBO with both sizes zero. -/
def c10_bbo_empty : BBO := { bid := 10, ask := 12, bid_size := 0, ask_size := 0, ts := 0 }

/-- C8 witness input: a guard state one failure away from the limit. -/
def c8_state : RiskState := { reject_streak := 2 }

/-- C8 witness input: an already-halted guard state. -/
def c8_halted_state : RiskState :=
  { halted := true, halt_reason := some "reject_streak", halt_ts := some 1,
    reject_streak := 3 }

/-- C5 fixtures: the `i`-th distinct fill id (`i` letters `a`). -/
def natKey (i : Nat) : String := String.mk (List.replicate i 'a')

/-- C5: the `i`-th spot fill, a hedge-intent fill of size 1 whose
`order_id` is absent and whose client oid resolves to no ticket (so
`_handle_fill` takes the `_apply_hedge_fill` path and mutates the
positions and the unhedged quantity). -/
def c5_fill (i : Nat) : ExecutionEvent :=
  { inst_type := InstType.SPOT, symbol := "ETHUSDT", order_id := "",
    client_oid := "HEDGE-sim", fill_id := natKey i, side := Side.BUY,
    price := 100, size := 1, fee := 0, ts := (i : ℚ) }

/-- C5: the environment of the `i`-th polling instant (the wall clock
advances by one second per fill). -/
def c5_env (i : Nat) : OMS.Env := { baseEnv with now := (i : ℚ) }

/-- C5: the dedup key of the `i`-th fill. -/
def c5_key (i : Nat) : String := "SPOT:" ++ natKey i

/-- C5: the LRU entry of the `i`-th fill. -/
def c5_entry (i : Nat) : String × ℚ := (c5_key i, (i : ℚ))

/-- C5: the record emitted for each handled fill. -/
def c5_fill_record : OMS.Record := { event := "fill", intent := some "HEDGE" }

/-- C5: the OMS state after ingesting the first `n ≤ 10001` distinct
fills: `n` position/unhedged mutations, and an LRU index holding the
most recent `min n 10000` keys. -/
def c5_state (n : Nat) : OMS.OmsState :=
  { positions := { spot_pos := (n : ℚ), perp_pos := 0 },
    seen_fills := { maxlen := 10000,
                    data := (List.range' (n - min n 10000) (min n 10000)).map c5_entry },
    unhedged_qty := -(n : ℚ),
    records := List.replicate n c5_fill_record }

/-- C5: the polled rows `a, a+1, …, a+len-1`, each with its instant. -/
def c5_events (a len : Nat) : List (OMS.Env × ExecutionEvent) :=
  (List.range' a len).map (fun i => (c5_env i, c5_fill i))

/-- C5: the OMS state after the duplicate of fill 0 is reprocessed at
instant 10001 (its key was evicted by the 10000 newer keys). -/
def c5_final : OMS.OmsState :=
  { positions := { spot_pos := 10002, perp_pos := 0 },
    seen_fills := { maxlen := 10000,
                    data := (List.range' 2 9999).map c5_entry
                      ++ [(c5_key 0, 10001)] },
    unhedged_qty := -10002,
    records := List.replicate 10002 c5_fill_record }

/-- C5 witness input: a state whose LRU index already holds a key. -/
def c5_seen_state : OMS.OmsState :=
  { seen_fills := { maxlen := 10000, data := [("SPOT:FILL1", 50)] } }

/-- C5 witness input: a later row with that already-indexed key. -/
def c5_seen_event : ExecutionEvent :=
  { inst_type := InstType.SPOT, symbol := "ETHUSDT", order_id := "ORD9",
    client_oid := "HEDGE-sim", fill_id := "FILL1", side := Side.BUY,
    price := 100, size := 1, fee := 0, ts := 60 }

/-! ## Theorems -/

/-- C1: on the very first `books` bootstrap timeout, `run_public_ws`
emits `book_boot_timeout` and immediately signals the shared disconnect
event with error `book_fallback_failed` (which the supervisor turns into
a halt); it performs none of the fallback steps the spec requires — no
unsubscribe, no socket close, no book-store clear, no `books5`
resubscription, no `book_fallback`/`book_store_cleared` events — and the
channel for the next iteration is still `books`. -/
theorem C1_first_timeout_escalates_without_fallback :
    c1_iteration.2 = "books" ∧
    Gateway.Action.signalDisconnect "public" (some "book_fallback_failed") ∈ c1_iteration.1 ∧
    Gateway.Action.logEvent "book_boot_timeout" ∈ c1_iteration.1 ∧
    Gateway.Action.unsubscribeBooks "books" ∉ c1_iteration.1 ∧
    Gateway.Action.closePublicSocket ∉ c1_iteration.1 ∧
    Gateway.Action.clearBookStore ∉ c1_iteration.1 ∧
    Gateway.Action.subscribePublicBooks "books5" ∉ c1_iteration.1 ∧
    Gateway.Action.logEvent "book_fallback" ∉ c1_iteration.1 ∧
    Gateway.Action.logEvent "book_store_cleared" ∉ c1_iteration.1 := by
  decide

/-- C6 counterexample: `is_ready` holds for constraints whose
`min_notional` is zero, so *ready* is not equivalent to all four fields
being strictly positive. -/
theorem C6_is_ready_counterexample :
    c6_constraints.is_ready = true ∧
    ¬ (0 < c6_constraints.tick_size ∧ 0 < c6_constraints.qty_step ∧
       0 < c6_constraints.min_qty ∧ 0 < c6_constraints.min_notional) := by
  decide

/-- C6 (amended): the ready predicate holds if and only if the three of
`tick_size`, `qty_step` and `min_qty` are strictly positive —
`min_notional` is not consulted. -/
theorem C6_is_ready_iff (c : InstrumentConstraints) :
    c.is_ready = true ↔ (0 < c.tick_size ∧ 0 < c.qty_step ∧ 0 < c.min_qty) := by
  simp only [InstrumentConstraints.is_ready, Bool.and_eq_true, decide_eq_true_eq,
    gt_iff_lt]
  tauto

/-- C7: `needs_replace(existing, px, size)` returns true exactly when
the size differs by more than half a quantity step or the price differs
by at least one tick. -/
theorem C7_needs_replace_iff (existing : OMS.ActiveOrder) (px size : ℚ)
    (c : InstrumentConstraints) :
    OMS.needs_replace existing px size c = true ↔
      (|size - existing.size| > c.qty_step / 2 ∨
       |px - existing.price| ≥ c.tick_size) := by
  unfold OMS.needs_replace
  split
  · simp_all
  · split <;> simp_all

/-- Flooring to a positive grid is idempotent: the quotient of an
already-floored value is an integer, whose floor is itself. -/
theorem floor_grid_fix (s x : ℚ) (hs : 0 < s) :
    ((Int.floor ((((Int.floor (x / s) : ℤ) : ℚ) * s) / s) : ℤ) : ℚ) * s
      = ((Int.floor (x / s) : ℤ) : ℚ) * s := by
  rw [mul_div_cancel_right₀ _ (ne_of_gt hs), Int.floor_intCast]

/-- C9: with positive `tick_size` and `qty_step`, `adjust_price` and
`adjust_qty` are idempotent. -/
theorem C9_adjust_idempotent (c : InstrumentConstraints) (px q : ℚ)
    (htick : 0 < c.tick_size) (hstep : 0 < c.qty_step) :
    c.adjust_price (c.adjust_price px) = c.adjust_price px ∧
    c.adjust_qty (c.adjust_qty q) = c.adjust_qty q := by
  constructor
  · unfold InstrumentConstraints.adjust_price
    rw [if_neg (not_le.mpr htick), if_neg (not_le.mpr htick)]
    exact floor_grid_fix c.tick_size px htick
  · unfold InstrumentConstraints.adjust_qty
    rw [if_neg (not_le.mpr hstep), if_neg (not_le.mpr hstep)]
    exact floor_grid_fix c.qty_step q hstep

/-- C9 witness: the idempotence theorem applied at tick 1/4 and step
1/2 on concrete inputs. -/
theorem C9_adjust_idempotent_witness :
    ((0:ℚ) < c9_constraints.tick_size ∧ (0:ℚ) < c9_constraints.qty_step) ∧
    (c9_constraints.adjust_price (c9_constraints.adjust_price (157/100))
        = c9_constraints.adjust_price (157/100) ∧
     c9_constraints.adjust_qty (c9_constraints.adjust_qty (33/10))
        = c9_constraints.adjust_qty (33/10)) :=
  ⟨⟨by decide, by decide⟩,
   C9_adjust_idempotent c9_constraints (157/100) (33/10) (by decide) (by decide)⟩

/-- C10: `calc_microprice` is total on every BBO — when the size sum is
non-positive it returns the arithmetic mid, otherwise the size-weighted
microprice. -/
theorem C10_calc_microprice_total (bbo : BBO) :
    (bbo.bid_size + bbo.ask_size ≤ 0 →
      calc_microprice bbo = (bbo.bid + bbo.ask) / 2) ∧
    (0 < bbo.bid_size + bbo.ask_size →
      calc_microprice bbo =
        (bbo.ask * bbo.bid_size + bbo.bid * bbo.ask_size)
          / (bbo.bid_size + bbo.ask_size)) := by
  constructor
  · intro h
    simp [calc_microprice, if_pos h]
  · intro h
    simp [calc_microprice, if_neg (not_le.mpr h)]

/-- C10 witness: the totality theorem applied to a BBO with both sizes
zero (mid branch) and to one with positive sizes (weighted branch). -/
theorem C10_calc_microprice_total_witness :
    (c10_bbo_empty.bid_size + c10_bbo_empty.ask_size ≤ 0 ∧
      calc_microprice c10_bbo_empty = (c10_bbo_empty.bid + c10_bbo_empty.ask) / 2) ∧
    (0 < c10_bbo.bid_size + c10_bbo.ask_size ∧
      calc_microprice c10_bbo =
        (c10_bbo.ask * c10_bbo.bid_size + c10_bbo.bid * c10_bbo.ask_size)
          / (c10_bbo.bid_size + c10_bbo.ask_size)) :=
  ⟨⟨by decide, (C10_calc_microprice_total c10_bbo_empty).1 (by decide)⟩,
   ⟨by decide, (C10_calc_microprice_total c10_bbo).2 (by decide)⟩⟩

/-- C8: `record_order_result(true)` resets the consecutive-failure
counter; `record_order_result(false)` increments it and, when the new
value reaches `reject_streak_limit`, latches the halt with reason
`reject_streak`; and no mutating `RiskGuards` operation ever clears a
latched halt. -/
theorem C8_reject_streak_and_halt_latch (cfg : RiskConfig) (s : RiskState)
    (now : ℚ) :
    ((RiskGuards.record_order_result cfg s true now).1.reject_streak = 0) ∧
    ((RiskGuards.record_order_result cfg s false now).1.reject_streak
        = s.reject_streak + 1) ∧
    (s.reject_streak + 1 ≥ cfg.reject_streak_limit →
      (RiskGuards.record_order_result cfg s false now).1.halted = true ∧
      (RiskGuards.record_order_result cfg s false now).1.halt_reason
        = some "reject_streak") ∧
    (s.halted = true →
      ∀ op : RiskGuards.Op, (RiskGuards.applyOp cfg s op).halted = true) := by
  refine ⟨rfl, ?_, ?_, ?_⟩
  · by_cases hc : cfg.reject_streak_limit ≤ s.reject_streak + 1 <;>
      simp [RiskGuards.record_order_result, RiskGuards.halt, hc]
  · intro hlim
    constructor <;>
      simp [RiskGuards.record_order_result, RiskGuards.halt, ge_iff_le.mp hlim]
  · intro hhalt op
    cases op with
    | setCooldown t => simpa [RiskGuards.applyOp, RiskGuards.set_cooldown]
    | doHalt r t => simp [RiskGuards.applyOp, RiskGuards.halt]
    | recordOrderResult ok t =>
        by_cases hok : ok = true
        · simp [RiskGuards.applyOp, RiskGuards.record_order_result, hok, hhalt]
        · by_cases hc : cfg.reject_streak_limit ≤ s.reject_streak + 1 <;>
            simp [RiskGuards.applyOp, RiskGuards.record_order_result,
              RiskGuards.halt, hok, hc, hhalt]

/-- C8 witness: applied at limit 3 to a state with streak 2 (the
crossing failure halts with reason `reject_streak`) and to an
already-halted state (every operation preserves the halt). -/
theorem C8_reject_streak_and_halt_latch_witness :
    ((2:Int) + 1 ≥ baseRiskCfg.reject_streak_limit ∧
     (RiskGuards.record_order_result baseRiskCfg c8_state false 9).1.halted = true ∧
     (RiskGuards.record_order_result baseRiskCfg c8_state false 9).1.halt_reason
        = some "reject_streak") ∧
    (c8_halted_state.halted = true ∧
     (RiskGuards.applyOp baseRiskCfg c8_halted_state
        (RiskGuards.Op.recordOrderResult true 10)).halted = true) := by
  have h1 := (C8_reject_streak_and_halt_latch baseRiskCfg c8_state 9).2.2.1
  have h2 := (C8_reject_streak_and_halt_latch baseRiskCfg c8_halted_state 10).2.2.2
  have hs : c8_state.reject_streak + 1 ≥ baseRiskCfg.reject_streak_limit := by decide
  exact ⟨⟨by decide, (h1 hs).1, (h1 hs).2⟩,
         ⟨by decide, h2 (by decide) (RiskGuards.Op.recordOrderResult true 10)⟩⟩

/-- C3: the `OrderIntent` enum of `types.py` has exactly the four
members `QUOTE_BID`, `QUOTE_ASK`, `HEDGE`, `FLATTEN` — there is no
`UNWIND` member — so when `process_hedge_tickets` reaches the unwind
branch for an expired Open ticket with `tries = hedge_max_tries`, the
attribute access `OrderIntent.UNWIND` inside `_unwind_ticket` raises
`AttributeError` instead of submitting the reduce-only Market unwind
order and failing the ticket. -/
theorem C3_unwind_raises_attribute_error :
    (orderIntentMembers.map OrderIntent.value
        = ["QUOTE_BID", "QUOTE_ASK", "HEDGE", "FLATTEN"]) ∧
    orderIntentAttr "UNWIND" = none ∧
    c3_ticket.status = "OPEN" ∧ c3_env.now ≥ c3_ticket.deadline_ts ∧
    c3_ticket.tries = c3_env.hedge.hedge_max_tries ∧
    OMS.process_hedge_tickets c3_env c3_state (some c3_bbo)
      = Except.error "AttributeError: UNWIND" := by
  decide

/-- C4: a fresh (deduplicated) perpetual fill with quote intent
`QUOTE_BID` does not open a hedge ticket and does not increment the
unhedged quantity: `_handle_fill` raises `AttributeError` while
evaluating `OrderIntent.UNWIND` before it can dispatch to
`_hedge_perp_fill`. -/
theorem C4_perp_quote_fill_crashes_before_hedging :
    (({} : OMS.OmsState).seen_fills.contains
        (c4_event.inst_type.value ++ ":" ++ c4_event.fill_id) = false) ∧
    OMS.intent_from_client_oid c4_event.client_oid
      = some OrderIntent.QUOTE_BID ∧
    OMS.process_fill_event c4_env ({} : OMS.OmsState) c4_event
      = Except.error "AttributeError: UNWIND" := by
  decide

/-- C2: a strategy cycle run after the risk guards have latched a halt
still submits quotes — the resulting record trace contains an
`order_new` record with intent `QUOTE_BID` (and one with `QUOTE_ASK`),
because neither `MMFundingStrategy.step` nor `OMS._submit_order` ever
consults `is_halted`. -/
theorem C2_halted_run_still_emits_quote_order_new :
    c2_state.risk.halted = true ∧
    ((Strategy.step c2_env ⟨"STOPPED", 0⟩ c2_state).2.records.any
        (fun r => r.event == "order_new" && r.intent == some "QUOTE_BID")
      = true) ∧
    ((Strategy.step c2_env ⟨"STOPPED", 0⟩ c2_state).2.records.any
        (fun r => r.event == "order_new" && r.intent == some "QUOTE_ASK")
      = true) ∧
    (Strategy.step c2_env ⟨"STOPPED", 0⟩ c2_state).2.risk.halted = true := by
  decide

/-- The `data` field of a literal string value. -/
theorem string_data_mk (l : List Char) : (String.mk l).data = l := rfl

/-- C5 dedup keys are pairwise distinct. -/
theorem c5_key_inj {i j : Nat} (h : c5_key i = c5_key j) : i = j := by
  have hd := congrArg String.data h
  simp only [c5_key, natKey, String.data_append, string_data_mk] at hd
  have h2 := List.append_cancel_left hd
  have h3 := congrArg List.length h2
  simpa using h3

/-- A key outside the index window is fresh. -/
theorem c5_fresh (a len n : Nat) (h : n < a ∨ a + len ≤ n) :
    ((List.range' a len).map c5_entry).any (fun p => p.1 == c5_key n) = false := by
  rw [List.any_eq_false]
  intro p hp
  obtain ⟨j, hj, rfl⟩ := List.mem_map.mp hp
  obtain ⟨i, hi, rfl⟩ := List.mem_range'.mp hj
  have hne : a + 1 * i ≠ n := by omega
  simp only [c5_entry, beq_iff_eq, decide_eq_true_eq]
  exact fun he => hne (c5_key_inj he)

/-- Assigning a fresh key into a Python dict appends it. -/
theorem dictSet_fresh {α : Type} (d : List (String × α)) (k : String) (v : α)
    (h : d.any (fun p => p.1 == k) = false) : dictSet d k v = d ++ [(k, v)] := by
  simp [dictSet, h]

/-- Python `min` keeps the seed when nothing beats it. -/
theorem foldl_min_keep (e : String × ℚ) (l : List (String × ℚ))
    (h : ∀ p ∈ l, ¬ p.2 < e.2) :
    l.foldl (fun b p => if p.2 < b.2 then p else b) e = e := by
  induction l with
  | nil => rfl
  | cons q l ih =>
      rw [List.foldl_cons, if_neg (h q (List.mem_cons_self q l))]
      exact ih (fun p hp => h p (List.mem_cons_of_mem q hp))

/-- The first entry is minimal when every later value is at least it. -/
theorem minEntry_cons (e : String × ℚ) (l : List (String × ℚ))
    (h : ∀ p ∈ l, ¬ p.2 < e.2) : OMS.minEntry (e :: l) = some e := by
  show some (l.foldl (fun b p => if p.2 < b.2 then p else b) e) = some e
  rw [foldl_min_keep e l h]

/-- Popping the head key of a dict whose tail does not use it. -/
theorem dictPop_head {α : Type} (k : String) (v : α) (l : List (String × α))
    (h : ∀ p ∈ l, p.1 ≠ k) : dictPop ((k, v) :: l) k = l := by
  unfold dictPop
  rw [List.filter_cons]
  simp only [bne_self_eq_false, Bool.false_eq_true, if_false]
  rw [List.filter_eq_self.mpr]
  intro p hp
  simpa using h p hp

/-- Membership facts for the mapped range entries. -/
theorem c5_entry_mem {p : String × ℚ} {s l : Nat}
    (hp : p ∈ (List.range' s l).map c5_entry) :
    ∃ j, s ≤ j ∧ j < s + l ∧ p = c5_entry j := by
  obtain ⟨j, hj, rfl⟩ := List.mem_map.mp hp
  obtain ⟨i, hi, rfl⟩ := List.mem_range'.mp hj
  exact ⟨s + 1 * i, by omega, by omega, rfl⟩

set_option maxHeartbeats 1000000 in
/-- Evaluating `_handle_fill` on one of the C5 fills: the positions and
the unhedged quantity are mutated and the fill record is emitted. -/
theorem c5_handle_fill_eval (env : OMS.Env) (st : OMS.OmsState) (i : Nat)
    (hct : st.spot_client_ticket = []) (hot : st.spot_order_ticket = [])
    (hu : st.unhedged_qty ≤ 0) :
    OMS.handle_fill env st (c5_fill i) = Except.ok
      { st with
        positions := { st.positions with spot_pos := st.positions.spot_pos + 1 },
        unhedged_qty := st.unhedged_qty - 1,
        records := st.records ++ [c5_fill_record] } := by
  have heps : ¬ (|st.unhedged_qty - 1| ≤ OMS.eps) := by
    rw [abs_of_nonpos (by linarith), OMS.eps]
    intro hle
    have : (1 : ℚ) / 1000000000 < 1 := by norm_num
    linarith
  have hint : OMS.intent_from_client_oid "HEDGE-sim" = some OrderIntent.HEDGE := by
    decide
  obtain ⟨pos, seen, ab, aa, ocm, sct, sot, ht, uq, us, rk, rec⟩ := st
  simp only at hct hot hu heps
  subst hct
  subst hot
  unfold OMS.handle_fill OMS.ticket_id_from_event OMS.apply_hedge_fill OMS.emit
  simp only [c5_fill, hint, List.lookup_nil, OMS.PositionTracker.apply_fill,
    c5_fill_record, OrderIntent.value]
  simp [heps]
  rfl

/-- The dedup key computed by `monitor_fills` for the `i`-th C5 fill. -/
theorem c5_key_eq (i : Nat) :
    (c5_fill i).inst_type.value ++ ":" ++ (c5_fill i).fill_id = c5_key i := by
  simp only [c5_fill, InstType.value, c5_key, natKey]
  rw [show ("SPOT" : String) ++ ":" = "SPOT:" from by decide]

/-- C5: adding the fresh `n`-th key to the index holding keys
`0, …, n-1` keeps the most recent `min (n+1) 10000` keys, evicting key
0 exactly when the index was full. -/
theorem c5_lru_add (n : Nat) (hn : n ≤ 10000) :
    OMS.LRUSet.add ⟨10000, (List.range' 0 n).map c5_entry⟩
      (c5_key n) ((n : ℚ))
      = ⟨10000, (List.range' (n + 1 - min (n + 1) 10000)
          (min (n + 1) 10000)).map c5_entry⟩ := by
  have hfresh : ((List.range' 0 n).map c5_entry).any
      (fun p => p.1 == c5_key n) = false :=
    c5_fresh 0 n n (Or.inr (by omega))
  unfold OMS.LRUSet.add
  rw [dictSet_fresh _ _ _ hfresh]
  rw [show ((c5_key n, (n : ℚ))) = c5_entry n from rfl,
    show (List.range' 0 n).map c5_entry ++ [c5_entry n]
        = (List.range' 0 (n + 1)).map c5_entry from by
      rw [List.range'_1_concat, List.map_append]; simp]
  rcases Nat.lt_or_ge n 10000 with hlt | hge
  · rw [if_neg (by simp only [List.length_map, List.length_range']; omega)]
    have h1 : min (n + 1) 10000 = n + 1 := Nat.min_eq_left (by omega)
    simp [h1]
  · have hq : n = 10000 := by omega
    subst hq
    rw [if_pos (by simp only [List.length_map, List.length_range']; omega)]
    rw [show List.range' 0 (10000 + 1) = 0 :: List.range' 1 10000 from
      List.range'_succ 0 10000 1]
    rw [List.map_cons]
    rw [show c5_entry 0 = ((c5_key 0, (0 : ℚ))) from by simp [c5_entry]]
    rw [minEntry_cons ((c5_key 0, (0 : ℚ))) _ (by
      intro p hp
      obtain ⟨j, hj1, _, rfl⟩ := c5_entry_mem hp
      simp only [c5_entry]
      exact not_lt.mpr (Nat.cast_nonneg j))]
    dsimp only
    rw [dictPop_head _ _ _ (by
      intro p hp
      obtain ⟨j, hj1, _, rfl⟩ := c5_entry_mem hp
      simp only [c5_entry]
      exact fun he => absurd (c5_key_inj he) (by omega))]
    norm_num

/-- C5 induction step: ingesting the fresh `n`-th fill advances the
state. -/
theorem c5_step (n : Nat) (hn : n ≤ 10000) :
    OMS.process_fill_event (c5_env n) (c5_state n) (c5_fill n)
      = Except.ok (c5_state (n + 1)) := by
  have hmin : min n 10000 = n := Nat.min_eq_left hn
  have hst : c5_state n
      = { positions := ⟨(n : ℚ), 0⟩,
          seen_fills := ⟨10000, (List.range' 0 n).map c5_entry⟩,
          unhedged_qty := -(n : ℚ),
          records := List.replicate n c5_fill_record } := by
    simp [c5_state, hmin]
  have hfresh : ((List.range' 0 n).map c5_entry).any
      (fun p => p.1 == c5_key n) = false :=
    c5_fresh 0 n n (Or.inr (by omega))
  unfold OMS.process_fill_event
  simp only [c5_key_eq, hst, OMS.LRUSet.contains, hfresh, Bool.false_eq_true,
    if_false]
  rw [show (c5_env n).now = (n : ℚ) from rfl]
  rw [show OMS.LRUSet.add ⟨10000, (List.range' 0 n).map c5_entry⟩
        (c5_key n) ((n : ℚ))
      = ⟨10000, (List.range' (n + 1 - min (n + 1) 10000)
          (min (n + 1) 10000)).map c5_entry⟩ from c5_lru_add n hn]
  rw [c5_handle_fill_eval (c5_env n) _ n rfl rfl (by simp)]
  simp only [c5_state]
  rw [show ((n : ℚ)) + 1 = ((n + 1 : ℕ) : ℚ) from by push_cast; ring,
    show -(n : ℚ) - 1 = -((n + 1 : ℕ) : ℚ) from by push_cast; ring,
    ← List.replicate_succ']

/-- C5: ingesting the distinct fills `a, …, a+len-1` from the state
after the first `a` fills. -/
theorem c5_run (a len : Nat) (h : a + len ≤ 10001) :
    OMS.process_fills (c5_state a) (c5_events a len)
      = Except.ok (c5_state (a + len)) := by
  induction len generalizing a with
  | zero => rfl
  | succ len ih =>
      have h2 := ih (a + 1) (by omega)
      unfold c5_events OMS.process_fills at h2 ⊢
      rw [List.range'_succ, List.map_cons, List.foldlM_cons,
        c5_step a (by omega)]
      rw [show a + (len + 1) = (a + 1) + len from by omega]
      simpa [Except.bind] using h2

/-- C5: the state after the first 10001 fills, in explicit form. -/
theorem c5_state_10001_eq :
    c5_state 10001
      = { positions := ⟨(10001 : ℚ), 0⟩,
          seen_fills := ⟨10000, (List.range' 1 10000).map c5_entry⟩,
          unhedged_qty := -(10001 : ℚ),
          records := List.replicate 10001 c5_fill_record } := by
  norm_num [c5_state, Nat.min_def]

/-- C5: the empty OMS state is the state after zero fills. -/
theorem c5_state_zero : c5_state 0 = ({} : OMS.OmsState) := by
  norm_num [c5_state]

/-- C5: reprocessing the duplicate of fill 0 at instant 10001 — its key
was evicted by the 10000 newer keys — mutates the positions and the
unhedged quantity a second time. -/
theorem c5_dup_step :
    OMS.process_fill_event (c5_env 10001) (c5_state 10001) (c5_fill 0)
      = Except.ok c5_final := by
  have hfresh : ((List.range' 1 10000).map c5_entry).any
      (fun p => p.1 == c5_key 0) = false :=
    c5_fresh 1 10000 0 (Or.inl (by omega))
  have hadd : OMS.LRUSet.add ⟨10000, (List.range' 1 10000).map c5_entry⟩
      (c5_key 0) (((10001 : ℕ)) : ℚ)
      = ⟨10000, (List.range' 2 9999).map c5_entry ++ [(c5_key 0, 10001)]⟩ := by
    unfold OMS.LRUSet.add
    rw [dictSet_fresh _ _ _ hfresh]
    rw [if_pos (by norm_num)]
    rw [show List.range' 1 10000 = 1 :: List.range' 2 9999 from by
      rw [show (10000 : Nat) = 9999 + 1 from by norm_num, List.range'_succ]]
    rw [List.map_cons, List.cons_append]
    rw [show c5_entry 1 = ((c5_key 1, (1 : ℚ))) from by simp [c5_entry]]
    rw [minEntry_cons ((c5_key 1, (1 : ℚ))) _ (by
      intro p hp
      rcases List.mem_append.mp hp with hp1 | hp1
      · obtain ⟨j, hj1, _, rfl⟩ := c5_entry_mem hp1
        simp only [c5_entry]
        intro hlt
        have : j < 1 := by exact_mod_cast hlt
        omega
      · rw [List.mem_singleton.mp hp1]
        norm_num)]
    dsimp only
    rw [dictPop_head _ _ _ (by
      intro p hp
      rcases List.mem_append.mp hp with hp1 | hp1
      · obtain ⟨j, hj1, _, rfl⟩ := c5_entry_mem hp1
        simp only [c5_entry]
        exact fun he => absurd (c5_key_inj he) (by omega)
      · rw [List.mem_singleton.mp hp1]
        exact fun he => absurd (c5_key_inj he) (by omega))]
    norm_num
  unfold OMS.process_fill_event
  simp only [c5_key_eq, c5_state_10001_eq, OMS.LRUSet.contains, hfresh,
    Bool.false_eq_true, if_false]
  rw [show (c5_env 10001).now = (((10001 : ℕ)) : ℚ) from rfl]
  rw [hadd]
  rw [c5_handle_fill_eval (c5_env 10001) _ 0 rfl rfl (by norm_num)]
  simp only [c5_final]
  rw [show ((10001 : ℚ)) + 1 = 10002 from by norm_num,
    show -(10001 : ℚ) - 1 = -10002 from by norm_num,
    show (List.replicate 10002 c5_fill_record : List OMS.Record)
        = List.replicate 10001 c5_fill_record ++ [c5_fill_record] from by
      rw [show (10002 : Nat) = 10001 + 1 from by norm_num,
        List.replicate_succ']]

/-- C5 counterexample: over the run that ingests 10001 distinct fills
and then a duplicate of the very first one, the duplicate is *not*
skipped — its dedup key was evicted from the bounded LRU index by the
10000 newer keys — and the position/unhedged mutations for that key are
applied a second time (final spot position 10002 for 10001 distinct
fills). -/
theorem C5_lru_eviction_reprocesses_duplicate :
    OMS.process_fills ({} : OMS.OmsState) (c5_events 0 10001)
      = Except.ok (c5_state 10001) ∧
    c5_events 0 10001 = (c5_env 0, c5_fill 0) :: c5_events 1 10000 ∧
    (c5_state 10001).positions.spot_pos = 10001 ∧
    (c5_state 10001).seen_fills.contains
      ((c5_fill 0).inst_type.value ++ ":" ++ (c5_fill 0).fill_id) = false ∧
    OMS.process_fill_event (c5_env 10001) (c5_state 10001) (c5_fill 0)
      = Except.ok c5_final ∧
    c5_final.positions.spot_pos = 10002 := by
  refine ⟨?_, ?_, ?_, ?_, c5_dup_step, by norm_num [c5_final]⟩
  · have h := c5_run 0 10001 (by omega)
    rw [c5_state_zero] at h
    simpa using h
  · unfold c5_events
    rw [show (10001 : Nat) = 10000 + 1 from by norm_num, List.range'_succ,
      List.map_cons]
  · norm_num [c5_state_10001_eq]
  · rw [c5_key_eq]
    simp only [c5_state_10001_eq, OMS.LRUSet.contains]
    exact c5_fresh 1 10000 0 (Or.inl (by omega))

/-- C5 (amended): a later row whose dedup key is still present in the
LRU index is skipped without mutating positions, tickets, or unhedged
state — the processing step returns the state unchanged. -/
theorem C5_seen_key_skipped (env : OMS.Env) (st : OMS.OmsState)
    (e : ExecutionEvent)
    (h : st.seen_fills.contains (e.inst_type.value ++ ":" ++ e.fill_id) = true) :
    OMS.process_fill_event env st e = Except.ok st := by
  unfold OMS.process_fill_event
  simp [h]

/-- C5 witness: the skip theorem applied to a concrete state whose
index already holds the row's key. -/
theorem C5_seen_key_skipped_witness :
    c5_seen_state.seen_fills.contains
      (c5_seen_event.inst_type.value ++ ":" ++ c5_seen_event.fill_id) = true ∧
    OMS.process_fill_event baseEnv c5_seen_state c5_seen_event
      = Except.ok c5_seen_state :=
  ⟨by decide,
   C5_seen_key_skipped baseEnv c5_seen_state c5_seen_event (by decide)⟩

end Bot
